import Mathlib

/-!
# The search namespace façade of `cmskitdev/client`

A shallow embedding of `registry_namespace_search.go`: the three methods of
`SearchNamespace` (`Query`, `QueryAll`, `Stream`), together with the parts of the
package they call.  The collaborators whose code lives in other files of the package
(operator constructors, `Execute`, `Stream`, `StreamPaginated`,
`DefaultOperatorConfig`) are taken as parameters, bundled in `Deps`; the result
container, the request value objects and the registry lookup are modelled from the
specification.  Go channels are modelled sequentially by their buffer state.
-/

set_option linter.dupNamespace false

namespace Client

/-! ## Errors and the result container -/

/-- Modelled from the spec: the error kinds of §7; their declarations are not in the
source file.  A Go `error` that is non-nil is a value of this type. -/
inductive ClientError where
  | NotFoundError (key : String)
  | TypeMismatchError (key wantType gotType : String)
  | TransportError (msg : String)
  | DecodeError (msg : String)
  | CancellationError
  deriving DecidableEq, Repr

/-- Modelled from the spec: `Result[T]` of §3, the two-variant container whose
declaration is not in the source file. -/
inductive Result (α : Type) where
  | Ok (value : α)
  | Err (error : ClientError)
  deriving DecidableEq, Repr

/-- Modelled from the spec: the constructor `Error[T](err)` of §4.1, which wraps a
non-nil error into the `Err` variant. -/
def Error {α : Type} (err : ClientError) : Result α := Result.Err err

/-- The inspection `IsError` of §4.1. -/
def Result.IsError {α : Type} : Result α → Bool
  | Result.Ok _ => false
  | Result.Err _ => true

/-! ## Requests -/

/-- Modelled from the spec: `types.SearchFilter`, with the two fields the source file
assigns. -/
structure types.SearchFilter where
  Property : String
  Value : String
  deriving DecidableEq, Repr

/-- Modelled from the spec: `types.SearchRequest`, the request shape of §6
(criteria, optional cursor, optional page size).  `none` is the Go zero value of each
field. -/
structure types.SearchRequest where
  Filter : Option types.SearchFilter
  StartCursor : Option String
  PageSize : Option Nat
  deriving DecidableEq, Repr

/-- The package's own `SearchRequest`, which embeds `types.SearchRequest` (the only
field the source file assigns). -/
structure SearchRequest where
  SearchRequest : types.SearchRequest
  deriving DecidableEq, Repr

/-! ## Channels -/

/-- The state of a Go channel: buffer capacity, buffered elements (oldest first) and
the closed flag. -/
structure Chan (α : Type) where
  cap : Nat
  buf : List α
  closed : Bool
  deriving DecidableEq, Repr

/-- The ways a channel operation performed with no other goroutine present fails to
complete. -/
inductive ChanFault where
  | blocked
  | sendOnClosed
  | closeOfClosed
  deriving DecidableEq, Repr

/-- Go `make(chan T, cap)`. -/
def Chan.make {α : Type} (cap : Nat) : Chan α := ⟨cap, [], false⟩

/-- Go `ch <- v` with no receiver waiting: completes exactly when the buffer has room. -/
def Chan.send {α : Type} (c : Chan α) (v : α) : Except ChanFault (Chan α) :=
  if c.closed then Except.error ChanFault.sendOnClosed
  else if c.buf.length < c.cap then Except.ok ⟨c.cap, c.buf ++ [v], c.closed⟩
  else Except.error ChanFault.blocked

/-- Go `close(ch)`. -/
def Chan.close {α : Type} (c : Chan α) : Except ChanFault (Chan α) :=
  if c.closed then Except.error ChanFault.closeOfClosed
  else Except.ok ⟨c.cap, c.buf, true⟩

/-- What a receive `v, ok := <-ch` observes. -/
inductive Recv (α : Type) where
  | value (v : α)
  | closed
  | blocked
  deriving DecidableEq, Repr

/-- Go `<-ch` with no sender waiting: buffered elements are delivered first, also
after `close`; an empty closed channel reports closed; an empty open one blocks. -/
def Chan.recv {α : Type} (c : Chan α) : Recv α × Chan α :=
  match c.buf with
  | v :: rest => (Recv.value v, ⟨c.cap, rest, c.closed⟩)
  | [] => if c.closed then (Recv.closed, c) else (Recv.blocked, c)

/-! ## The capability registry -/

/-- A type-erased registered object: the descriptor of its dynamic type and a handle. -/
structure Dyn where
  typeName : String
  handle : Nat
  deriving DecidableEq, Repr

/-- Modelled from the spec: `Registry` (§4.2), whose declaration is not in the source
file; the source file reads its field `httpClient`. -/
structure Registry (HTTPClient : Type) where
  entries : List (String × Dyn)
  httpClient : HTTPClient

/-- Modelled from the spec: `Register` (§4.2); a later binding replaces an earlier one. -/
def Registry.Register {H : Type} (r : Registry H) (key : String) (value : Dyn) : Registry H :=
  ⟨(key, value) :: r.entries, r.httpClient⟩

/-- Modelled from the spec: `GetTyped[T](registry, key)` (§4.2), which is not in the
source file: `NotFoundError{key}` when the key is absent,
`TypeMismatchError{key, wantType, gotType}` when the stored object has another type,
the object otherwise. -/
def GetTyped {H : Type} (wantType : String) (r : Registry H) (key : String) :
    Except ClientError Dyn :=
  match r.entries.lookup key with
  | none => Except.error (ClientError.NotFoundError key)
  | some v =>
    if v.typeName = wantType then Except.ok v
    else Except.error (ClientError.TypeMismatchError key wantType v.typeName)

/-- The descriptor of `*SearchOperator[types.SearchResult]`. -/
def searchOperatorType : String := "*client.SearchOperator[types.SearchResult]"

/-! ## Collaborators and the façade -/

/-- The collaborators of the source file that are defined elsewhere in the package. -/
structure Deps where
  HTTPClient : Type
  OperatorConfig : Type
  Context : Type
  SearchResult : Type
  SearchOperator : Type
  PaginatedOperator : Type
  DefaultOperatorConfig : OperatorConfig
  NewSearchOperator : HTTPClient → OperatorConfig → SearchOperator
  NewPaginatedOperator : HTTPClient → OperatorConfig → PaginatedOperator
  Execute : SearchOperator → Context → types.SearchRequest → Result (List SearchResult)
  Stream : SearchOperator → Context → types.SearchRequest → Chan (Result SearchResult)
  StreamPaginated : PaginatedOperator → Context → SearchRequest → Chan (Result SearchResult)

/-- The struct `SearchNamespace`. -/
structure SearchNamespace (deps : Deps) where
  registry : Registry deps.HTTPClient

/-- The method `SearchNamespace.Query` (lines 22-35). -/
def SearchNamespace.Query (deps : Deps) (ns : SearchNamespace deps) (ctx : deps.Context)
    (_req : SearchRequest) : Chan (Result deps.SearchResult) :=
  let paginatedOp := deps.NewPaginatedOperator ns.registry.httpClient deps.DefaultOperatorConfig
  let r : SearchRequest :=
    ⟨⟨some ⟨"object", "database"⟩, none, none⟩⟩
  deps.StreamPaginated paginatedOp ctx r

/-- The method `SearchNamespace.QueryAll` (lines 45-55). -/
def SearchNamespace.QueryAll (deps : Deps) (ns : SearchNamespace deps) (ctx : deps.Context)
    (req : types.SearchRequest) : Result (List deps.SearchResult) :=
  match GetTyped searchOperatorType ns.registry "search" with
  | Except.error err => Error err
  | Except.ok _ =>
    let searchOp := deps.NewSearchOperator ns.registry.httpClient deps.DefaultOperatorConfig
    deps.Execute searchOp ctx req

/-- The method `SearchNamespace.Stream` (lines 65-77).  The result is `Except.ok ch`
when the method returns the channel `ch`, and a `ChanFault` when a channel operation
of the method itself would not complete. -/
def SearchNamespace.Stream (deps : Deps) (ns : SearchNamespace deps) (ctx : deps.Context)
    (req : types.SearchRequest) : Except ChanFault (Chan (Result deps.SearchResult)) :=
  match GetTyped searchOperatorType ns.registry "search" with
  | Except.error err =>
    (Chan.make 1 : Chan (Result deps.SearchResult)).send (Error err) >>= fun resultCh =>
    resultCh.close >>= fun resultCh =>
    pure resultCh
  | Except.ok _ =>
    let searchOp := deps.NewSearchOperator ns.registry.httpClient deps.DefaultOperatorConfig
    pure (deps.Stream searchOp ctx req)

/-- The channel state after `n` receives. -/
def Chan.afterRecvs {α : Type} (c : Chan α) : Nat → Chan α
  | 0 => c
  | n + 1 => (Chan.afterRecvs c n).recv.2

/-! ## Test doubles -/

/-- Collaborators that echo what they are handed: every operator remembers its client
and configuration, and every operation answers with the request it received. -/
def echoDeps : Deps where
  HTTPClient := Nat
  OperatorConfig := Nat
  Context := Unit
  SearchResult := types.SearchRequest
  SearchOperator := Nat × Nat
  PaginatedOperator := Nat × Nat
  DefaultOperatorConfig := 30
  NewSearchOperator := fun c cfg => (c, cfg)
  NewPaginatedOperator := fun c cfg => (c, cfg)
  Execute := fun _ _ req => Result.Ok [req]
  Stream := fun _ _ req => ⟨1, [Result.Ok req], false⟩
  StreamPaginated := fun _ _ r => ⟨1, [Result.Ok r.SearchRequest], false⟩

/-- A namespace whose registry has nothing registered. -/
def emptyNs : SearchNamespace echoDeps := ⟨⟨[], (7 : Nat)⟩⟩

/-- A namespace whose registry holds a search operator under "search". -/
def searchNs : SearchNamespace echoDeps :=
  ⟨⟨[("search", ⟨searchOperatorType, 1⟩)], (7 : Nat)⟩⟩

/-- A namespace whose registry holds an object of another type under "search". -/
def mistypedNs : SearchNamespace echoDeps :=
  ⟨⟨[("search", ⟨"*client.PaginatedOperator[types.Page]", 2⟩)], (7 : Nat)⟩⟩

/-- A request for pages. -/
def pageRequest : types.SearchRequest := ⟨some ⟨"object", "page"⟩, none, some 10⟩

/-- A request for databases, continuing from a cursor. -/
def cursorRequest : types.SearchRequest := ⟨some ⟨"object", "database"⟩, some "c1", none⟩

/-- Collaborators whose transport is down for streaming: `Execute` answers `Ok` with
no items, and `Stream` answers with a channel that already holds its one terminal
transport `Err` and is closed. -/
def downDeps : Deps where
  HTTPClient := Nat
  OperatorConfig := Nat
  Context := Unit
  SearchResult := types.SearchRequest
  SearchOperator := Nat × Nat
  PaginatedOperator := Nat × Nat
  DefaultOperatorConfig := 30
  NewSearchOperator := fun c cfg => (c, cfg)
  NewPaginatedOperator := fun c cfg => (c, cfg)
  Execute := fun _ _ _ => Result.Ok []
  Stream := fun _ _ _ => ⟨1, [Result.Err (ClientError.TransportError "down")], true⟩
  StreamPaginated := fun _ _ _ => ⟨1, [Result.Err (ClientError.TransportError "down")], true⟩

/-- A namespace over `downDeps` whose registry holds a search operator under "search". -/
def downNs : SearchNamespace downDeps :=
  ⟨⟨[("search", ⟨searchOperatorType, 1⟩)], (7 : Nat)⟩⟩

/-! ## Unfolding lemmas -/

theorem QueryAll_of_error (deps : Deps) (ns : SearchNamespace deps) (ctx : deps.Context)
    (req : types.SearchRequest) (e : ClientError)
    (h : GetTyped searchOperatorType ns.registry "search" = Except.error e) :
    SearchNamespace.QueryAll deps ns ctx req = Result.Err e := by
  simp only [SearchNamespace.QueryAll, h, Error]

theorem QueryAll_of_ok (deps : Deps) (ns : SearchNamespace deps) (ctx : deps.Context)
    (req : types.SearchRequest) (v : Dyn)
    (h : GetTyped searchOperatorType ns.registry "search" = Except.ok v) :
    SearchNamespace.QueryAll deps ns ctx req =
      deps.Execute (deps.NewSearchOperator ns.registry.httpClient deps.DefaultOperatorConfig)
        ctx req := by
  simp only [SearchNamespace.QueryAll, h]

theorem Stream_of_error (deps : Deps) (ns : SearchNamespace deps) (ctx : deps.Context)
    (req : types.SearchRequest) (e : ClientError)
    (h : GetTyped searchOperatorType ns.registry "search" = Except.error e) :
    SearchNamespace.Stream deps ns ctx req = Except.ok ⟨1, [Result.Err e], true⟩ := by
  simp only [SearchNamespace.Stream, h]
  rfl

theorem Stream_of_ok (deps : Deps) (ns : SearchNamespace deps) (ctx : deps.Context)
    (req : types.SearchRequest) (v : Dyn)
    (h : GetTyped searchOperatorType ns.registry "search" = Except.ok v) :
    SearchNamespace.Stream deps ns ctx req =
      Except.ok (deps.Stream
        (deps.NewSearchOperator ns.registry.httpClient deps.DefaultOperatorConfig) ctx req) := by
  simp only [SearchNamespace.Stream, h]
  rfl

theorem GetTyped_absent {H : Type} (want : String) (r : Registry H) (key : String)
    (h : r.entries.lookup key = none) :
    GetTyped want r key = Except.error (ClientError.NotFoundError key) := by
  simp only [GetTyped, h]

theorem GetTyped_mistyped {H : Type} (want : String) (r : Registry H) (key : String) (v : Dyn)
    (h : r.entries.lookup key = some v) (hne : v.typeName ≠ want) :
    GetTyped want r key =
      Except.error (ClientError.TypeMismatchError key want v.typeName) := by
  simp only [GetTyped, h, if_neg hne]

theorem GetTyped_emptyNs :
    GetTyped searchOperatorType emptyNs.registry "search" =
      Except.error (ClientError.NotFoundError "search") := rfl

theorem GetTyped_mistypedNs :
    GetTyped searchOperatorType mistypedNs.registry "search" =
      Except.error (ClientError.TypeMismatchError "search" searchOperatorType
        "*client.PaginatedOperator[types.Page]") := rfl

theorem GetTyped_searchNs :
    GetTyped searchOperatorType searchNs.registry "search" =
      Except.ok ⟨searchOperatorType, 1⟩ := rfl

theorem recv_drained_closed {α : Type} (cap n : Nat) :
    Chan.afterRecvs (⟨cap, [], true⟩ : Chan α) n = ⟨cap, [], true⟩ := by
  induction n with
  | zero => rfl
  | succ k ih => simp only [Chan.afterRecvs, ih, Chan.recv]; rfl

/-! ## Lookup failure -/

/-- Claim C1: in every registry where the lookup of "search" at the search-operator
type fails, `Stream` returns a channel that holds exactly one element, that element is
an `Err` result (carrying the lookup error), and the channel is already closed, so the
receive after that element reports the channel closed. -/
theorem Stream_unresolved_single_closed_err (deps : Deps) (ns : SearchNamespace deps)
    (ctx : deps.Context) (req : types.SearchRequest) (e : ClientError)
    (h : GetTyped searchOperatorType ns.registry "search" = Except.error e) :
    ∃ ch, SearchNamespace.Stream deps ns ctx req = Except.ok ch ∧
      ch.buf = [Result.Err e] ∧ ch.buf.length = 1 ∧
      (∀ x ∈ ch.buf, x.IsError = true) ∧ ch.closed = true ∧
      (ch.afterRecvs 1).recv.1 = Recv.closed := by
  refine ⟨⟨1, [Result.Err e], true⟩, Stream_of_error deps ns ctx req e h, rfl, rfl, ?_, rfl, rfl⟩
  intro x hx
  rw [List.mem_singleton] at hx
  subst hx
  rfl

theorem Stream_unresolved_single_closed_err_witness :
    GetTyped searchOperatorType emptyNs.registry "search" =
        Except.error (ClientError.NotFoundError "search") ∧
      ∃ ch, SearchNamespace.Stream echoDeps emptyNs () pageRequest = Except.ok ch ∧
        ch.buf = [Result.Err (ClientError.NotFoundError "search")] ∧ ch.buf.length = 1 ∧
        (∀ x ∈ ch.buf, x.IsError = true) ∧ ch.closed = true ∧
        (ch.afterRecvs 1).recv.1 = Recv.closed :=
  ⟨rfl, Stream_unresolved_single_closed_err echoDeps emptyNs () pageRequest
    (ClientError.NotFoundError "search") rfl⟩

/-- Claim C2: in every registry where the lookup of "search" at the search-operator
type fails, `QueryAll` returns an `Err` result and no `Ok` result, whatever the slice. -/
theorem QueryAll_unresolved_err (deps : Deps) (ns : SearchNamespace deps)
    (ctx : deps.Context) (req : types.SearchRequest) (e : ClientError)
    (h : GetTyped searchOperatorType ns.registry "search" = Except.error e) :
    SearchNamespace.QueryAll deps ns ctx req = Result.Err e ∧
      (SearchNamespace.QueryAll deps ns ctx req).IsError = true ∧
      ∀ items, SearchNamespace.QueryAll deps ns ctx req ≠ Result.Ok items := by
  rw [QueryAll_of_error deps ns ctx req e h]
  refine ⟨rfl, rfl, ?_⟩
  intro items hEq
  cases hEq

theorem QueryAll_unresolved_err_witness :
    GetTyped searchOperatorType mistypedNs.registry "search" =
        Except.error (ClientError.TypeMismatchError "search" searchOperatorType
          "*client.PaginatedOperator[types.Page]") ∧
      (SearchNamespace.QueryAll echoDeps mistypedNs () pageRequest =
          Result.Err (ClientError.TypeMismatchError "search" searchOperatorType
            "*client.PaginatedOperator[types.Page]") ∧
        (SearchNamespace.QueryAll echoDeps mistypedNs () pageRequest).IsError = true ∧
        ∀ items, SearchNamespace.QueryAll echoDeps mistypedNs () pageRequest ≠
          Result.Ok items) :=
  ⟨rfl, QueryAll_unresolved_err echoDeps mistypedNs () pageRequest
    (ClientError.TypeMismatchError "search" searchOperatorType
      "*client.PaginatedOperator[types.Page]") rfl⟩

/-- Claim C3, the code at the failing inputs: with nothing registered under "search",
and likewise with an object of another type registered there, the lookup fails and
`Stream` reports it by the one-element closed channel, while `Query` hands its fixed
request to the paginated operator and returns that operator's channel, which here is
open and holds an `Ok` element; it is not a closed channel with one `Err`. -/
theorem Query_unresolved_still_delegates :
    GetTyped searchOperatorType emptyNs.registry "search" =
        Except.error (ClientError.NotFoundError "search") ∧
      SearchNamespace.Stream echoDeps emptyNs () pageRequest =
        Except.ok ⟨1, [Result.Err (ClientError.NotFoundError "search")], true⟩ ∧
      SearchNamespace.Query echoDeps emptyNs () ⟨pageRequest⟩ =
        ⟨1, [Result.Ok ⟨some ⟨"object", "database"⟩, none, none⟩], false⟩ ∧
      (¬ ∃ e, SearchNamespace.Query echoDeps emptyNs () ⟨pageRequest⟩ =
        ⟨1, [Result.Err e], true⟩) ∧
      GetTyped searchOperatorType mistypedNs.registry "search" =
        Except.error (ClientError.TypeMismatchError "search" searchOperatorType
          "*client.PaginatedOperator[types.Page]") ∧
      SearchNamespace.Query echoDeps mistypedNs () ⟨pageRequest⟩ =
        ⟨1, [Result.Ok ⟨some ⟨"object", "database"⟩, none, none⟩], false⟩ ∧
      (¬ ∃ e, SearchNamespace.Query echoDeps mistypedNs () ⟨pageRequest⟩ =
        ⟨1, [Result.Err e], true⟩) := by
  refine ⟨rfl, rfl, rfl, ?_, rfl, rfl, ?_⟩
  · rintro ⟨e, he⟩
    have hc := congrArg Chan.closed he
    exact Bool.noConfusion hc
  · rintro ⟨e, he⟩
    have hc := congrArg Chan.closed he
    exact Bool.noConfusion hc

/-- Claim C4 as stated fails on the returned values: with "search" resolved and an
operator whose `Execute` returns `Ok` of no items while its `Stream` returns a closed
channel holding one transport `Err`, `Stream` returns a one-element closed channel
carrying an `Err` although `QueryAll` returns no `Err` at all, and no lookup failed. -/
theorem QueryAll_Stream_outputs_not_equivalent :
    GetTyped searchOperatorType downNs.registry "search" =
        Except.ok ⟨searchOperatorType, 1⟩ ∧
      SearchNamespace.QueryAll downDeps downNs () pageRequest = Result.Ok [] ∧
      SearchNamespace.Stream downDeps downNs () pageRequest =
        Except.ok ⟨1, [Result.Err (ClientError.TransportError "down")], true⟩ ∧
      (¬ ((∃ e, SearchNamespace.QueryAll downDeps downNs () pageRequest = Result.Err e) ↔
        (∃ e, SearchNamespace.Stream downDeps downNs () pageRequest =
          Except.ok ⟨1, [Result.Err e], true⟩))) ∧
      ¬ ((∃ e, GetTyped searchOperatorType downNs.registry "search" = Except.error e ∧
            SearchNamespace.QueryAll downDeps downNs () pageRequest = Result.Err e) ↔
        (∃ e, SearchNamespace.Stream downDeps downNs () pageRequest =
          Except.ok ⟨1, [Result.Err e], true⟩)) := by
  have hq : SearchNamespace.QueryAll downDeps downNs () pageRequest = Result.Ok [] := rfl
  have hs : ∃ e, SearchNamespace.Stream downDeps downNs () pageRequest =
      Except.ok ⟨1, [Result.Err e], true⟩ := ⟨ClientError.TransportError "down", rfl⟩
  refine ⟨rfl, rfl, rfl, ?_, ?_⟩
  · intro hiff
    obtain ⟨e, he⟩ := hiff.mpr hs
    rw [hq] at he
    cases he
  · intro hiff
    obtain ⟨e, _, he⟩ := hiff.mpr hs
    rw [hq] at he
    cases he

/-- Claim C4, amended: `QueryAll` and `Stream` branch on the same lookup (key "search",
search-operator type).  When it fails with `e`, `QueryAll` returns `Err e` and `Stream`
the one-element closed channel carrying the same `Err e`; when it succeeds, both
delegate to a newly built search operator; so no registry makes one fail at the lookup
while the other delegates.  On the returned values this gives: a `QueryAll` result that is
no `Err` means `Stream` delegated, and a `Stream` result that is not a capacity-one
closed channel with one `Err` means `QueryAll` delegated. -/
theorem QueryAll_Stream_same_lookup_branch (deps : Deps) (ns : SearchNamespace deps)
    (ctx₁ ctx₂ : deps.Context) (req₁ req₂ : types.SearchRequest) :
    (∀ e, GetTyped searchOperatorType ns.registry "search" = Except.error e →
      SearchNamespace.QueryAll deps ns ctx₁ req₁ = Result.Err e ∧
      SearchNamespace.Stream deps ns ctx₂ req₂ = Except.ok ⟨1, [Result.Err e], true⟩) ∧
    (∀ v, GetTyped searchOperatorType ns.registry "search" = Except.ok v →
      SearchNamespace.QueryAll deps ns ctx₁ req₁ =
        deps.Execute
          (deps.NewSearchOperator ns.registry.httpClient deps.DefaultOperatorConfig)
          ctx₁ req₁ ∧
      SearchNamespace.Stream deps ns ctx₂ req₂ =
        Except.ok (deps.Stream
          (deps.NewSearchOperator ns.registry.httpClient deps.DefaultOperatorConfig)
          ctx₂ req₂)) ∧
    ((∀ e, SearchNamespace.QueryAll deps ns ctx₁ req₁ ≠ Result.Err e) →
      SearchNamespace.Stream deps ns ctx₂ req₂ =
        Except.ok (deps.Stream
          (deps.NewSearchOperator ns.registry.httpClient deps.DefaultOperatorConfig)
          ctx₂ req₂)) ∧
    ((∀ e, SearchNamespace.Stream deps ns ctx₂ req₂ ≠
        Except.ok ⟨1, [Result.Err e], true⟩) →
      SearchNamespace.QueryAll deps ns ctx₁ req₁ =
        deps.Execute
          (deps.NewSearchOperator ns.registry.httpClient deps.DefaultOperatorConfig)
          ctx₁ req₁) := by
  refine ⟨?_, ?_, ?_, ?_⟩
  · intro e h
    exact ⟨QueryAll_of_error deps ns ctx₁ req₁ e h, Stream_of_error deps ns ctx₂ req₂ e h⟩
  · intro v h
    exact ⟨QueryAll_of_ok deps ns ctx₁ req₁ v h, Stream_of_ok deps ns ctx₂ req₂ v h⟩
  · intro hno
    cases h : GetTyped searchOperatorType ns.registry "search" with
    | error e => exact absurd (QueryAll_of_error deps ns ctx₁ req₁ e h) (hno e)
    | ok v => exact Stream_of_ok deps ns ctx₂ req₂ v h
  · intro hno
    cases h : GetTyped searchOperatorType ns.registry "search" with
    | error e => exact absurd (Stream_of_error deps ns ctx₂ req₂ e h) (hno e)
    | ok v => exact QueryAll_of_ok deps ns ctx₁ req₁ v h

theorem QueryAll_Stream_same_lookup_branch_witness :
    (SearchNamespace.QueryAll echoDeps emptyNs () pageRequest =
        Result.Err (ClientError.NotFoundError "search") ∧
      SearchNamespace.Stream echoDeps emptyNs () cursorRequest =
        Except.ok ⟨1, [Result.Err (ClientError.NotFoundError "search")], true⟩) ∧
    SearchNamespace.Stream echoDeps searchNs () cursorRequest =
      Except.ok (echoDeps.Stream
        (echoDeps.NewSearchOperator searchNs.registry.httpClient
          echoDeps.DefaultOperatorConfig) () cursorRequest) :=
  ⟨(QueryAll_Stream_same_lookup_branch echoDeps emptyNs () () pageRequest cursorRequest).1
      (ClientError.NotFoundError "search") rfl,
   (QueryAll_Stream_same_lookup_branch echoDeps searchNs () () pageRequest cursorRequest).2.2.1
      (fun _ he => Result.noConfusion
        ((rfl : SearchNamespace.QueryAll echoDeps searchNs () pageRequest =
          Result.Ok [pageRequest]).symm.trans he))⟩

/-- Claim C5: the façade hands on the lookup error as it is.  Whatever error the
lookup returns is the error of the `Err` of `QueryAll` and of the single element of
`Stream`; it is `NotFoundError` for "search" when the key is absent, and
`TypeMismatchError` with the wanted and the stored type when the key holds an object
of another type. -/
theorem lookup_error_handed_on_unchanged (deps : Deps) (ns : SearchNamespace deps)
    (ctx : deps.Context) (req : types.SearchRequest) :
    (∀ e, GetTyped searchOperatorType ns.registry "search" = Except.error e →
      SearchNamespace.QueryAll deps ns ctx req = Result.Err e ∧
      SearchNamespace.Stream deps ns ctx req = Except.ok ⟨1, [Result.Err e], true⟩) ∧
    (ns.registry.entries.lookup "search" = none →
      SearchNamespace.QueryAll deps ns ctx req =
        Result.Err (ClientError.NotFoundError "search") ∧
      SearchNamespace.Stream deps ns ctx req =
        Except.ok ⟨1, [Result.Err (ClientError.NotFoundError "search")], true⟩) ∧
    (∀ v, ns.registry.entries.lookup "search" = some v → v.typeName ≠ searchOperatorType →
      SearchNamespace.QueryAll deps ns ctx req =
        Result.Err (ClientError.TypeMismatchError "search" searchOperatorType v.typeName) ∧
      SearchNamespace.Stream deps ns ctx req =
        Except.ok ⟨1, [Result.Err
          (ClientError.TypeMismatchError "search" searchOperatorType v.typeName)], true⟩) := by
  refine ⟨?_, ?_, ?_⟩
  · intro e h
    exact ⟨QueryAll_of_error deps ns ctx req e h, Stream_of_error deps ns ctx req e h⟩
  · intro h
    have hg := GetTyped_absent searchOperatorType ns.registry "search" h
    exact ⟨QueryAll_of_error deps ns ctx req _ hg, Stream_of_error deps ns ctx req _ hg⟩
  · intro v h hne
    have hg := GetTyped_mistyped searchOperatorType ns.registry "search" v h hne
    exact ⟨QueryAll_of_error deps ns ctx req _ hg, Stream_of_error deps ns ctx req _ hg⟩

theorem lookup_error_handed_on_unchanged_witness :
    (SearchNamespace.QueryAll echoDeps emptyNs () pageRequest =
        Result.Err (ClientError.NotFoundError "search") ∧
      SearchNamespace.Stream echoDeps emptyNs () pageRequest =
        Except.ok ⟨1, [Result.Err (ClientError.NotFoundError "search")], true⟩) ∧
    (SearchNamespace.QueryAll echoDeps mistypedNs () pageRequest =
        Result.Err (ClientError.TypeMismatchError "search" searchOperatorType
          "*client.PaginatedOperator[types.Page]") ∧
      SearchNamespace.Stream echoDeps mistypedNs () pageRequest =
        Except.ok ⟨1, [Result.Err (ClientError.TypeMismatchError "search" searchOperatorType
          "*client.PaginatedOperator[types.Page]")], true⟩) :=
  ⟨(lookup_error_handed_on_unchanged echoDeps emptyNs () pageRequest).2.1 rfl,
   (lookup_error_handed_on_unchanged echoDeps mistypedNs () pageRequest).2.2
     ⟨"*client.PaginatedOperator[types.Page]", 2⟩ rfl (by decide)⟩

/-! ## Delegation -/

/-- Claim C6: in every registry where the lookup of "search" succeeds, `QueryAll`
returns exactly what `Execute` returns on a search operator newly built from the
registry's transport client and the default configuration, with the caller's context
and request handed on unchanged. -/
theorem QueryAll_resolved_delegates (deps : Deps) (ns : SearchNamespace deps)
    (ctx : deps.Context) (req : types.SearchRequest) (v : Dyn)
    (h : GetTyped searchOperatorType ns.registry "search" = Except.ok v) :
    SearchNamespace.QueryAll deps ns ctx req =
      deps.Execute (deps.NewSearchOperator ns.registry.httpClient deps.DefaultOperatorConfig)
        ctx req :=
  QueryAll_of_ok deps ns ctx req v h

theorem QueryAll_resolved_delegates_witness :
    GetTyped searchOperatorType searchNs.registry "search" =
        Except.ok ⟨searchOperatorType, 1⟩ ∧
      SearchNamespace.QueryAll echoDeps searchNs () pageRequest =
        echoDeps.Execute (echoDeps.NewSearchOperator (7 : Nat) echoDeps.DefaultOperatorConfig)
          () pageRequest ∧
      SearchNamespace.QueryAll echoDeps searchNs () pageRequest = Result.Ok [pageRequest] :=
  ⟨rfl, QueryAll_resolved_delegates echoDeps searchNs () pageRequest
    ⟨searchOperatorType, 1⟩ rfl, rfl⟩

/-- Claim C7: in every registry where the lookup of "search" succeeds, `Stream`
returns exactly the channel that the operator's `Stream` returns on a search operator
newly built from the registry's transport client and the default configuration, with
the caller's context and request handed on unchanged; the channel is returned as it
is, so its elements and their order are the operator's. -/
theorem Stream_resolved_delegates (deps : Deps) (ns : SearchNamespace deps)
    (ctx : deps.Context) (req : types.SearchRequest) (v : Dyn)
    (h : GetTyped searchOperatorType ns.registry "search" = Except.ok v) :
    SearchNamespace.Stream deps ns ctx req =
      Except.ok (deps.Stream
        (deps.NewSearchOperator ns.registry.httpClient deps.DefaultOperatorConfig) ctx req) :=
  Stream_of_ok deps ns ctx req v h

theorem Stream_resolved_delegates_witness :
    GetTyped searchOperatorType searchNs.registry "search" =
        Except.ok ⟨searchOperatorType, 1⟩ ∧
      SearchNamespace.Stream echoDeps searchNs () cursorRequest =
        Except.ok (echoDeps.Stream
          (echoDeps.NewSearchOperator (7 : Nat) echoDeps.DefaultOperatorConfig)
          () cursorRequest) ∧
      SearchNamespace.Stream echoDeps searchNs () cursorRequest =
        Except.ok ⟨1, [Result.Ok cursorRequest], false⟩ :=
  ⟨rfl, Stream_resolved_delegates echoDeps searchNs () cursorRequest
    ⟨searchOperatorType, 1⟩ rfl, rfl⟩

/-! ## The request of `Query` -/

/-- Claim C8, the code at the failing input: two requests with different criteria (one
asks for pages with a page size, one has no filter) make `Query` hand the same request
to the paginated operator, the one whose filter is property "object" with value
"database"; with collaborators that echo the request they receive, the channel shows
it, and it carries the criteria of neither request. -/
theorem Query_drops_request_criteria :
    (⟨pageRequest⟩ : SearchRequest) ≠ ⟨⟨none, none, none⟩⟩ ∧
      pageRequest.Filter ≠ (⟨none, none, none⟩ : types.SearchRequest).Filter ∧
      SearchNamespace.Query echoDeps searchNs () ⟨pageRequest⟩ =
        ⟨1, [Result.Ok ⟨some ⟨"object", "database"⟩, none, none⟩], false⟩ ∧
      SearchNamespace.Query echoDeps searchNs () ⟨⟨none, none, none⟩⟩ =
        ⟨1, [Result.Ok ⟨some ⟨"object", "database"⟩, none, none⟩], false⟩ ∧
      (⟨some ⟨"object", "database"⟩, none, none⟩ : types.SearchRequest) ≠ pageRequest ∧
      (⟨some ⟨"object", "database"⟩, none, none⟩ : types.SearchRequest) ≠
        ⟨none, none, none⟩ := by
  refine ⟨by decide, by decide, rfl, rfl, by decide, by decide⟩

/-- Claim C10: `Query` issues one fixed request.  For every context, every two requests
and every two registries that hold the same transport client, whatever they hold under
"search", both calls return `StreamPaginated` applied to a paginated operator newly
built from that client and the default configuration, to the context, and to the
request whose filter is property "object" with value "database" and whose other fields
are zero. -/
theorem Query_fixed_request (deps : Deps) (ns₁ ns₂ : SearchNamespace deps)
    (ctx : deps.Context) (req₁ req₂ : SearchRequest)
    (h : ns₁.registry.httpClient = ns₂.registry.httpClient) :
    SearchNamespace.Query deps ns₁ ctx req₁ =
        deps.StreamPaginated
          (deps.NewPaginatedOperator ns₁.registry.httpClient deps.DefaultOperatorConfig) ctx
          ⟨⟨some ⟨"object", "database"⟩, none, none⟩⟩ ∧
      SearchNamespace.Query deps ns₂ ctx req₂ = SearchNamespace.Query deps ns₁ ctx req₁ := by
  refine ⟨rfl, ?_⟩
  simp only [SearchNamespace.Query, h]

theorem Query_fixed_request_witness :
    emptyNs.registry.httpClient = searchNs.registry.httpClient ∧
      (SearchNamespace.Query echoDeps emptyNs () ⟨pageRequest⟩ =
          echoDeps.StreamPaginated
            (echoDeps.NewPaginatedOperator emptyNs.registry.httpClient
              echoDeps.DefaultOperatorConfig) ()
            ⟨⟨some ⟨"object", "database"⟩, none, none⟩⟩ ∧
        SearchNamespace.Query echoDeps searchNs () ⟨cursorRequest⟩ =
          SearchNamespace.Query echoDeps emptyNs () ⟨pageRequest⟩) :=
  ⟨rfl, Query_fixed_request echoDeps emptyNs searchNs () ⟨pageRequest⟩ ⟨cursorRequest⟩ rfl⟩

/-! ## The failure path of `Stream` as channel operations -/

/-- Claim C9: the failure path of `Stream` does not block.  When the lookup fails, the
channel is made with capacity 1; the one send on it completes with no receiver
present; the close that follows completes; `Stream` returns that channel; the caller's
first receive delivers the one `Err`, and every receive after it reports the channel
closed. -/
theorem Stream_failure_path_never_blocks (deps : Deps) (ns : SearchNamespace deps)
    (ctx : deps.Context) (req : types.SearchRequest) (e : ClientError)
    (h : GetTyped searchOperatorType ns.registry "search" = Except.error e) :
    (Chan.make 1 : Chan (Result deps.SearchResult)).cap = 1 ∧
      (Chan.make 1 : Chan (Result deps.SearchResult)).send (Error e) =
        Except.ok ⟨1, [Result.Err e], false⟩ ∧
      (⟨1, [Result.Err e], false⟩ : Chan (Result deps.SearchResult)).close =
        Except.ok ⟨1, [Result.Err e], true⟩ ∧
      ∃ ch, SearchNamespace.Stream deps ns ctx req = Except.ok ch ∧
        ch.cap = 1 ∧ ch.recv.1 = Recv.value (Result.Err e) ∧
        ∀ n, ((ch.afterRecvs 1).afterRecvs n).recv.1 = Recv.closed := by
  refine ⟨rfl, rfl, rfl, ⟨1, [Result.Err e], true⟩, Stream_of_error deps ns ctx req e h,
    rfl, rfl, ?_⟩
  intro n
  have h1 : (⟨1, [Result.Err e], true⟩ : Chan (Result deps.SearchResult)).afterRecvs 1 =
      ⟨1, [], true⟩ := rfl
  rw [h1, recv_drained_closed]
  rfl

theorem Stream_failure_path_never_blocks_witness :
    GetTyped searchOperatorType emptyNs.registry "search" =
        Except.error (ClientError.NotFoundError "search") ∧
      ∃ ch, SearchNamespace.Stream echoDeps emptyNs () pageRequest = Except.ok ch ∧
        ch.cap = 1 ∧ ch.recv.1 = Recv.value (Result.Err (ClientError.NotFoundError "search")) ∧
        ∀ n, ((ch.afterRecvs 1).afterRecvs n).recv.1 = Recv.closed :=
  ⟨rfl, (Stream_failure_path_never_blocks echoDeps emptyNs () pageRequest
    (ClientError.NotFoundError "search") rfl).2.2.2⟩

end Client
